import Mathlib

/-!
Shallow embedding of the quiz core of `app.py` (Dr. Yousra AKT/CSA platform):
item-bank loading and option normalization, taxonomy filtering, quiz
navigation and scoring state, and the authorization gate. Pure fragments of
the Python source become Lean functions; the Streamlit session state becomes
an explicit `Session` record threaded through the state-transition
functions. Python dicts are modelled as association lists with insertion
order preserved, matching CPython dict semantics.
-/

set_option autoImplicit false

namespace App

/-- Association-list model of a Python `dict` with string keys and values.
Insertion order is the list order, as in CPython. -/
abbrev PyDict := List (String × String)

/-- Keys of the dict, in insertion order. -/
def dictKeys (d : PyDict) : List String := d.map Prod.fst

/-- Python `k in d`. -/
def dictContains (d : PyDict) (k : String) : Bool := d.any (fun p => p.1 == k)

/-- Python `d[k]` / `d.get(k)`: first binding of `k`, if any. -/
def dictGet (d : PyDict) (k : String) : Option String :=
  (d.find? (fun p => p.1 == k)).map Prod.snd

/-- Python `d[k] = v`: overwrite the binding in place if `k` is present,
else append at the end (CPython dict assignment). -/
def dictSet (d : PyDict) (k v : String) : PyDict :=
  if dictContains d k then d.map (fun p => if p.1 == k then (k, v) else p)
  else d ++ [(k, v)]

/-- The canonical option-letter sequence `["A", "B", "C", "D", "E"]` that
`load_items` uses to reorder option keys. -/
def optionLetters : List String := ["A", "B", "C", "D", "E"]

/-- Embedding of `order_opts` in `load_items` (app.py lines 66-68): the
dict comprehension over `keys = ["A","B","C","D","E"]` walks the canonical
letters in order, keeping a letter exactly when it is a key of `d`, bound
to its value `d[k]`. -/
def order_opts (d : PyDict) : PyDict :=
  optionLetters.filterMap (fun k => (dictGet d k).map (fun v => (k, v)))

/-- A raw `options` cell of the dataset: either a JSON object (Python dict)
or some other JSON value, which `load_items` leaves untouched. -/
inductive OptionsVal where
  | dict (d : PyDict)
  | nonDict (raw : String)
deriving DecidableEq

/-- Embedding of the normalization lambda in `load_items` (app.py line 69):
`lambda d: order_opts(d) if isinstance(d, dict) else d`. -/
def normalizeOptions : OptionsVal → OptionsVal
  | .dict d => .dict (order_opts d)
  | .nonDict raw => .nonDict raw

/-- The structured explanation of an item: `rationale` text plus the
`why_others_incorrect` list. -/
structure Explanation where
  rationale : String
  why_others_incorrect : List String
deriving DecidableEq

/-- One record of `data/items.jsonl`, as parsed by `load_items`. -/
structure Item where
  case_id : String
  domain : String
  sub_specialty : String
  topic : String
  question : String
  options : OptionsVal
  correct_answer : String
  explanation : Explanation
  guideline_reference : List String
deriving DecidableEq

/-- The column schema of the empty DataFrame that `load_items` returns when
the dataset file is missing (app.py line 57). -/
def itemColumns : List String :=
  ["case_id", "domain", "sub_specialty", "topic", "question", "options",
   "correct_answer", "explanation", "guideline_reference"]

/-- The in-memory item bank: the DataFrame produced by `load_items`, as its
column list plus its rows. -/
structure Bank where
  columns : List String
  rows : List Item
deriving DecidableEq

/-- Non-fatal messages surfaced to the user (`st.warning` / `st.error`). -/
inductive Message where
  | warning (text : String)
  | error (text : String)
deriving DecidableEq

/-- Embedding of `load_items` (app.py lines 54-70). The filesystem is
modelled by the argument: `none` when `jsonl_path.exists()` is false, and
`some recs` for the parsed non-blank records otherwise. A missing file
yields an empty bank carrying the full column schema together with a
warning; an existing file yields the records with each dict-shaped
`options` cell normalized by `order_opts`, and no message. An `Except.error`
result would model an uncaught Python exception; `load_items` never
produces one. -/
def load_items (file : Option (List Item)) : Except String (Bank × List Message) :=
  match file with
  | none =>
      .ok (⟨itemColumns, []⟩,
        [.warning "Question bank not found. Using empty dataset."])
  | some recs =>
      .ok (⟨itemColumns,
        recs.map (fun r => { r with options := normalizeOptions r.options })⟩, [])

/-- The identity dict stored by `sign_in`, with the keys `email` and `id`.
The email may be absent (`None`) in the provider's record. -/
structure Identity where
  email : Option String
  id : String
deriving DecidableEq

/-- The per-session mutable state kept in `st.session_state`
(`init_session`, app.py lines 99-103): authenticated user, quiz cursor,
cumulative score, and the responses map `case_id -> chosen`. -/
structure Session where
  auth_user : Option Identity
  quiz_index : Int
  quiz_score : Int
  responses : PyDict
deriving DecidableEq

/-- Embedding of `init_session`: cursor 0, score 0, empty responses, no
authenticated user. -/
def init_session : Session :=
  { auth_user := none, quiz_index := 0, quiz_score := 0, responses := [] }

/-- Python `str.lower()`, applied character-wise. -/
def strLower (s : String) : String := ⟨s.data.map Char.toLower⟩

/-- Python `str.strip()`: drop whitespace from both ends. -/
def pyStrip (s : String) : String :=
  ⟨((s.data.dropWhile Char.isWhitespace).reverse.dropWhile Char.isWhitespace).reverse⟩

/-- Splitting a character list on a separator character, Python
`str.split(sep)` style: adjacent separators produce empty fields and the
empty string yields one empty field. -/
def splitChar (sep : Char) : List Char → List (List Char)
  | [] => [[]]
  | c :: cs =>
      match splitChar sep cs with
      | [] => if c == sep then [[], []] else [[c]]
      | g :: gs => if c == sep then [] :: g :: gs else (c :: g) :: gs

/-- Python `s.split(",")`. -/
def pySplitCommas (s : String) : List String :=
  (splitChar ',' s.data).map (fun cs => String.mk cs)

/-- Embedding of `current_user_email` (app.py lines 75-77): the signed-in
user's email (or the empty string when the record has none), lower-cased;
`None` when nobody is signed in. -/
def current_user_email (s : Session) : Option String :=
  s.auth_user.map (fun u => strLower (u.email.getD ""))

/-- Embedding of `ADMIN_EMAILS` (app.py line 32): split the configured
string on commas, keep entries that are non-empty after stripping, and
store each stripped entry lower-cased. -/
def adminEmailsOf (cfg : String) : List String :=
  ((pySplitCommas cfg).filter (fun e => pyStrip e ≠ "")).map
    (fun e => strLower (pyStrip e))

/-- Embedding of `is_admin` (app.py lines 79-81): the current user's
normalized email is a member of `ADMIN_EMAILS`; with no signed-in user the
Python membership test `None in ADMIN_EMAILS` is false. -/
def is_admin (s : Session) (adminEmails : List String) : Bool :=
  match current_user_email s with
  | some e => decide (e ∈ adminEmails)
  | none => false

/-- The role the UI grants: the Admin tab appears only for a logged-in
admin (app.py line 340); a logged-in non-admin is a trainee; otherwise the
user is unauthenticated. -/
inductive Role where
  | admin
  | trainee
  | unauthenticated
deriving DecidableEq

/-- Role resolution from the session and the configured admin set. -/
def roleOf (s : Session) (adminEmails : List String) : Role :=
  if s.auth_user.isSome then
    if is_admin s adminEmails then .admin else .trainee
  else .unauthenticated

/-- Result of the identity provider's `sign_in_with_password` call: either
an identity or a raised exception with its message. -/
inductive AuthResult where
  | success (ident : Identity)
  | failure (msg : String)
deriving DecidableEq

/-- Embedding of `sign_in` (app.py lines 115-122): on provider success
return the identity dict; on a provider exception show an error message
and return `None`. -/
def sign_in (provider : AuthResult) : Option Identity × List Message :=
  match provider with
  | .success u => (some u, [])
  | .failure e => (none, [.error ("Sign-in failed: " ++ e)])

/-- Embedding of the sign-in branch of `auth_block` (app.py lines 189-194):
call `sign_in` and store the identity in the session only when one was
returned; on failure the session is left as it was. -/
def auth_block_signin (provider : AuthResult) (s : Session) :
    Session × List Message :=
  match sign_in provider with
  | (some u, msgs) => ({ s with auth_user := some u }, msgs)
  | (none, msgs) => (s, msgs)

/-- Embedding of `sign_out` (app.py lines 105-113): reset every session
field to its initial value. -/
def sign_out (_s : Session) : Session := init_session

/-- Embedding of the filter computation in `mcq_player` (app.py lines
249-253): start from the full bank and keep rows matching each criterion
that is not the sentinel `"All"`, by exact string equality. -/
def filterView (df : List Item) (dom_choice sub_choice : String) : List Item :=
  let f1 := if dom_choice ≠ "All" then df.filter (fun r => r.domain == dom_choice) else df
  if sub_choice ≠ "All" then f1.filter (fun r => r.sub_specialty == sub_choice) else f1

/-- Embedding of the cursor-validity check in `mcq_player` (app.py lines
256-259): a stored cursor at or past the end of the freshly computed view
is reset to 0 before any row is read. -/
def clampCursor (viewLen : Nat) (idx : Int) : Int :=
  if idx ≥ (viewLen : Int) then 0 else idx

/-- One render pass of `mcq_player` up to cursor validation: recompute the
view from the bank and the two filter choices, then clamp the stored
cursor against the new view. Returns the view and the updated session. -/
def applyFilterStep (df : List Item) (dom_choice sub_choice : String)
    (s : Session) : List Item × Session :=
  let view := filterView df dom_choice sub_choice
  (view, { s with quiz_index := clampCursor view.length s.quiz_index })

/-- Embedding of the Submit button handler (app.py lines 282-286): record
the choice under the item's `case_id`, then increment the score whenever
the choice equals the item's `correct_answer`. -/
def submitOp (case_id choice correct_answer : String) (s : Session) : Session :=
  let s1 := { s with responses := dictSet s.responses case_id choice }
  if choice == correct_answer then { s1 with quiz_score := s1.quiz_score + 1 } else s1

/-- Embedding of the Previous button handler (app.py lines 288-290):
`quiz_index = max(0, idx - 1)`. -/
def prevOp (s : Session) : Session :=
  { s with quiz_index := max 0 (s.quiz_index - 1) }

/-- Embedding of the Next button handler (app.py lines 292-294):
`quiz_index = min(len(filtered) - 1, idx + 1)`. -/
def nextOp (viewLen : Nat) (s : Session) : Session :=
  { s with quiz_index := min ((viewLen : Int) - 1) (s.quiz_index + 1) }

/-- A two-option sample item, used to instantiate theorems on concrete
banks. -/
def sampleItem (cid dom sub correct : String) : Item :=
  { case_id := cid, domain := dom, sub_specialty := sub, topic := "t",
    question := "q", options := .dict [("A", "a"), ("B", "b")],
    correct_answer := correct, explanation := ⟨"r", []⟩,
    guideline_reference := [] }

/-! ## Basic lemmas about the dict model -/

theorem dictContains_eq_isSome (d : PyDict) (k : String) :
    dictContains d k = (dictGet d k).isSome := by
  induction d with
  | nil => rfl
  | cons p d ih =>
      by_cases h : p.1 == k
      · simp [dictContains, dictGet, List.find?_cons, List.any_cons, h]
      · simp only [dictContains, dictGet, List.find?_cons, List.any_cons, h]
        simpa [dictContains, dictGet] using ih

theorem dictKeys_order_opts (d : PyDict) :
    dictKeys (order_opts d) = optionLetters.filter (fun k => dictContains d k) := by
  have general : ∀ ks : List String,
      (ks.filterMap (fun k => (dictGet d k).map (fun v => (k, v)))).map Prod.fst
        = ks.filter (fun k => dictContains d k) := by
    intro ks
    induction ks with
    | nil => rfl
    | cons k ks ih =>
        rw [List.filterMap_cons, List.filter_cons]
        cases h : dictGet d k with
        | none => simpa [dictContains_eq_isSome, h] using ih
        | some v => simpa [dictContains_eq_isSome, h] using ih
  simpa [order_opts, dictKeys] using general optionLetters

theorem mem_order_opts (d : PyDict) (k v : String) :
    (k, v) ∈ order_opts d ↔ k ∈ optionLetters ∧ dictGet d k = some v := by
  simp only [order_opts, List.mem_filterMap, Option.map_eq_some']
  constructor
  · rintro ⟨a, ha, w, hw, hkv⟩
    cases hkv
    exact ⟨ha, hw⟩
  · rintro ⟨hk, hv⟩
    exact ⟨k, hk, v, hv, rfl⟩

/-! ## Claim theorems -/

/-- C2: for every dict-shaped options value, the normalized options
mapping enumerates its keys in the fixed order A, B, C, D, E with absent
letters skipped, whatever the key order of the source dict; in particular
raw keys B, A, D normalize to the order A, B, D. -/
theorem normalized_options_canonical_order :
    (∀ d : PyDict,
      dictKeys (order_opts d) = optionLetters.filter (fun k => dictContains d k)) ∧
    dictKeys (order_opts [("B", "b"), ("A", "a"), ("D", "d")]) = ["A", "B", "D"] :=
  ⟨dictKeys_order_opts, by decide⟩

/-- C10: option normalization never alters option text and never invents
keys: the normalized mapping binds exactly the keys of the source dict
that are canonical letters, each to its value in the source dict (so any
other key is dropped), and a non-dict options value passes through
unchanged. -/
theorem normalized_options_exact :
    (∀ (d : PyDict) (k v : String),
      (k, v) ∈ order_opts d ↔ k ∈ optionLetters ∧ dictGet d k = some v) ∧
    (∀ d : PyDict, normalizeOptions (.dict d) = .dict (order_opts d)) ∧
    (∀ raw : String, normalizeOptions (.nonDict raw) = .nonDict raw) :=
  ⟨mem_order_opts, fun _ => rfl, fun _ => rfl⟩

/-- C1: the claim requires Submit to increment Score at most once per item
per session, but the Submit handler adds 1 whenever the submitted choice
equals the correct answer, with no per-item guard: submitting the correct
answer for the same item twice from a fresh session yields score 2, not 1,
while the stored response is simply overwritten. -/
theorem submit_twice_double_counts :
    (submitOp "C1" "A" "A" (submitOp "C1" "A" "A" init_session)).quiz_score = 2 ∧
    dictGet (submitOp "C1" "A" "A" (submitOp "C1" "A" "A" init_session)).responses "C1"
      = some "A" := by
  decide

/-- C3: on a view of length N with the cursor in [0, N), Next sets the
cursor to min(N-1, cursor+1) and Previous sets it to max(0, cursor-1);
iterating Next k times gives min(N-1, cursor+k), so repeated Next
saturates at N-1, and iterating Previous k times gives max(0, cursor-k),
so repeated Previous saturates at 0. -/
theorem navigation_clamps (N : Nat) (s : Session) (_hN : 0 < N)
    (h0 : 0 ≤ s.quiz_index) (hlt : s.quiz_index < (N : Int)) :
    (nextOp N s).quiz_index = min ((N : Int) - 1) (s.quiz_index + 1) ∧
    (prevOp s).quiz_index = max 0 (s.quiz_index - 1) ∧
    (∀ k : Nat,
      ((nextOp N)^[k] s).quiz_index = min ((N : Int) - 1) (s.quiz_index + k)) ∧
    (∀ k : Nat, (prevOp^[k] s).quiz_index = max 0 (s.quiz_index - k)) := by
  refine ⟨rfl, rfl, ?_, ?_⟩
  · intro k
    induction k with
    | zero =>
        simp only [Function.iterate_zero, id_eq, Nat.cast_zero, add_zero]
        omega
    | succ k ih =>
        rw [Function.iterate_succ_apply']
        have hstep : (nextOp N ((nextOp N)^[k] s)).quiz_index
            = min ((N : Int) - 1) (((nextOp N)^[k] s).quiz_index + 1) := rfl
        rw [hstep, ih]
        push_cast
        omega
  · intro k
    induction k with
    | zero =>
        simp only [Function.iterate_zero, id_eq, Nat.cast_zero, sub_zero]
        omega
    | succ k ih =>
        rw [Function.iterate_succ_apply']
        have hstep : (prevOp (prevOp^[k] s)).quiz_index
            = max 0 ((prevOp^[k] s).quiz_index - 1) := rfl
        rw [hstep, ih]
        push_cast
        omega

/-- Witness for C3 on a view of length 3 starting at cursor 1: five Next
presses saturate at index 2 and four Previous presses saturate at 0. -/
theorem navigation_clamps_witness :
    ((nextOp 3)^[5] { init_session with quiz_index := 1 }).quiz_index = 2 ∧
    (prevOp^[4] { init_session with quiz_index := 1 }).quiz_index = 0 := by
  have h := navigation_clamps 3 { init_session with quiz_index := 1 }
    (by decide) (by decide) (by decide)
  refine ⟨?_, ?_⟩
  · rw [h.2.2.1 5]; decide
  · rw [h.2.2.2 4]; decide

/-- C4: recomputing the view after a filter change clamps the stored
cursor: whenever the new view is non-empty the invariant
0 ≤ cursor < len(view) holds afterwards, and whenever the stored cursor is
at or past the new view's length (in particular whenever the view is
empty) the cursor is reset to 0 before any row is read. -/
theorem filter_change_cursor_reset (df : List Item) (dom sub : String)
    (s : Session) (h0 : 0 ≤ s.quiz_index) :
    (0 < (applyFilterStep df dom sub s).1.length →
      0 ≤ (applyFilterStep df dom sub s).2.quiz_index ∧
      (applyFilterStep df dom sub s).2.quiz_index
        < ((applyFilterStep df dom sub s).1.length : Int)) ∧
    (((applyFilterStep df dom sub s).1.length : Int) ≤ s.quiz_index →
      (applyFilterStep df dom sub s).2.quiz_index = 0) := by
  simp only [applyFilterStep, clampCursor]
  constructor
  · intro hlen
    split_ifs with hc
    · constructor <;> omega
    · constructor <;> omega
  · intro hge
    split_ifs with hc
    · rfl
    · omega

/-- Witness for C4: with a stored cursor of 3 and a recomputed view of
length 2 (a 2-item bank under the All/All filters), the cursor resets
to 0. -/
theorem filter_change_cursor_reset_witness :
    (0 : Int) ≤ 3 ∧
    (applyFilterStep
        [sampleItem "1" "Cardio" "GenX" "A", sampleItem "2" "Resp" "GenY" "A"]
        "All" "All" { init_session with quiz_index := 3 }).2.quiz_index = 0 :=
  ⟨by decide,
    (filter_change_cursor_reset
        [sampleItem "1" "Cardio" "GenX" "A", sampleItem "2" "Resp" "GenY" "A"]
        "All" "All" { init_session with quiz_index := 3 } (by decide)).2
      (by decide)⟩

/-- C9: from any cursor strictly before the last index, Next followed by
Previous restores the session exactly — same cursor, hence the same
current item — and navigation operations never touch the responses map,
the score, or the authenticated identity. -/
theorem next_prev_roundtrip (N : Nat) (s : Session)
    (h0 : 0 ≤ s.quiz_index) (hlt : s.quiz_index < (N : Int) - 1) :
    prevOp (nextOp N s) = s ∧
    (∀ (M : Nat) (t : Session),
      (nextOp M t).responses = t.responses ∧
      (nextOp M t).quiz_score = t.quiz_score ∧
      (nextOp M t).auth_user = t.auth_user ∧
      (prevOp t).responses = t.responses ∧
      (prevOp t).quiz_score = t.quiz_score ∧
      (prevOp t).auth_user = t.auth_user) := by
  constructor
  · cases s with
    | mk a i sc r =>
        simp only [prevOp, nextOp, Session.mk.injEq, and_true, true_and]
        simp only [Session.quiz_index] at h0 hlt
        omega
  · intro M t
    exact ⟨rfl, rfl, rfl, rfl, rfl, rfl⟩

/-- Witness for C9 at cursor 1 in a view of length 3: Next then Previous
restores the exact session state. -/
theorem next_prev_roundtrip_witness :
    prevOp (nextOp 3 { init_session with quiz_index := 1 })
      = { init_session with quiz_index := 1 } :=
  (next_prev_roundtrip 3 { init_session with quiz_index := 1 }
    (by decide) (by decide)).1

/-- C5: the Filtered View is a function of the bank and the current
(domain, sub-specialty) pair alone — two sessions with arbitrarily
different prior state produce the same view under the same pair — and
membership in the view is decided by exact string equality against each
criterion, with the sentinel All imposing no constraint. -/
theorem filter_view_deterministic :
    (∀ (df : List Item) (dom sub : String) (s1 s2 : Session),
      (applyFilterStep df dom sub s1).1 = (applyFilterStep df dom sub s2).1) ∧
    (∀ (df : List Item) (dom sub : String) (r : Item),
      r ∈ filterView df dom sub ↔
        r ∈ df ∧ (dom = "All" ∨ r.domain = dom) ∧
          (sub = "All" ∨ r.sub_specialty = sub)) := by
  constructor
  · intro df dom sub s1 s2
    rfl
  · intro df dom sub r
    by_cases hd : dom = "All" <;> by_cases hs : sub = "All"
    · simp [filterView, hd, hs, List.mem_filter, and_assoc]
    · simp [filterView, hd, hs, List.mem_filter, and_assoc]
    · simp [filterView, hd, hs, List.mem_filter, and_assoc]
    · simp [filterView, hd, hs, List.mem_filter, and_assoc]
      tauto

/-- C6: when the dataset location does not resolve (the file is absent),
`load_items` returns normally — no exception — with the empty bank
carrying the full column schema, and surfaces the situation as a warning
message. -/
theorem load_missing_dataset :
    ∃ bank : Bank,
      load_items none
        = Except.ok (bank,
            [Message.warning "Question bank not found. Using empty dataset."]) ∧
      bank.rows = [] ∧ bank.columns = itemColumns :=
  ⟨⟨itemColumns, []⟩, rfl, rfl, rfl⟩

/-- C7: a signed-in identity is granted the administrator role exactly
when its lower-cased email belongs to the configured admin-email list
(parsed lower-cased from the configuration string), and is a trainee
otherwise; matching is therefore case-insensitive in the identity's
email. -/
theorem admin_role_iff (s : Session) (u : Identity) (em cfg : String)
    (hu : s.auth_user = some u) (he : u.email = some em) :
    (roleOf s (adminEmailsOf cfg) = Role.admin ↔
      strLower em ∈ adminEmailsOf cfg) ∧
    (strLower em ∉ adminEmailsOf cfg →
      roleOf s (adminEmailsOf cfg) = Role.trainee) := by
  have hcur : current_user_email s = some (strLower em) := by
    simp [current_user_email, hu, he]
  have hrole : roleOf s (adminEmailsOf cfg)
      = if strLower em ∈ adminEmailsOf cfg then Role.admin else Role.trainee := by
    simp [roleOf, hu, is_admin, hcur]
  by_cases hmem : strLower em ∈ adminEmailsOf cfg <;> simp [hrole, hmem]

/-- Witness for C7: the email Admin@X.com against the configured set
admin@x.com resolves to administrator, and other@x.com resolves to
trainee. -/
theorem admin_role_iff_witness :
    roleOf { init_session with auth_user := some ⟨some "Admin@X.com", "u1"⟩ }
        (adminEmailsOf "admin@x.com") = Role.admin ∧
    roleOf { init_session with auth_user := some ⟨some "other@x.com", "u2"⟩ }
        (adminEmailsOf "admin@x.com") = Role.trainee :=
  ⟨(admin_role_iff _ ⟨some "Admin@X.com", "u1"⟩ "Admin@X.com" "admin@x.com"
      rfl rfl).1.mpr (by decide),
   (admin_role_iff _ ⟨some "other@x.com", "u2"⟩ "other@x.com" "admin@x.com"
      rfl rfl).2 (by decide)⟩

/-- C8: when the provider rejects the credentials, `sign_in` returns the
failure value None together with a user-visible error message, and the
sign-in block leaves every component of the session — identity, cursor,
score, responses — exactly as it was. -/
theorem signin_failure_frame :
    ∀ (e : String) (s : Session),
      (sign_in (.failure e)).1 = none ∧
      (sign_in (.failure e)).2 = [Message.error ("Sign-in failed: " ++ e)] ∧
      (auth_block_signin (.failure e) s).1 = s ∧
      (auth_block_signin (.failure e) s).1.auth_user = s.auth_user ∧
      (auth_block_signin (.failure e) s).1.quiz_index = s.quiz_index ∧
      (auth_block_signin (.failure e) s).1.quiz_score = s.quiz_score ∧
      (auth_block_signin (.failure e) s).1.responses = s.responses ∧
      (auth_block_signin (.failure e) s).2
        = [Message.error ("Sign-in failed: " ++ e)] := by
  intro e s
  exact ⟨rfl, rfl, rfl, rfl, rfl, rfl, rfl, rfl⟩

end App
